import Mathlib

/-!
Verification of the Ishiiruka video-subsystem specification against the code.

Shallow embedding of the relevant parts of the repository:

* `VideoBackends/Vulkan/TextureEncoder.h`: `TextureCacheParams`,
  `TCacheEntryConfig` (`GetSizeInBytes`, `operator==`, `Hasher`) and the
  frame-age cleanup contract of `TextureCacheBase::Cleanup`.
* `VideoBackends/Vulkan/ObjectCache.cpp`: `GetPipeline`,
  `Compile{Vertex,Geometry,Pixel}ShaderForUid`, `Get{Vertex,Geometry,Pixel}ShaderForUid`.
* `VideoCommon/RenderBase.cpp` (OGL section): `TextureCache::LoadLut`.
* `VertexShaderManager` (`Dirty`, `SetConstants`, `InvalidateXFRange`).
* `VideoBackends/Vulkan/StateTracker.h`: dirty-flag driven lazy binding.

Machine integers are modelled as `Nat` with explicit `% 2^w` where the C++
computation can wrap; C++ `int` values that can be negative (the dirty-interval
markers, loop bounds) are modelled as `Int` with C++ truncating division
(`Int.tdiv`).  GPU handles (`VkPipeline`, `VkShaderModule`, pointers) are
modelled as `Nat`, with `0` playing the role of `VK_NULL_HANDLE`/`nullptr`.
Floating-point payloads that are computed and stored by the code but never
branch back into the control flow we verify are abstracted away; every write
of such a payload is still recorded as an explicit write event.
-/

namespace Ishiiruka

/-! ### TextureCacheParams (VideoBackends/Vulkan/TextureEncoder.h, enum) -/

def TEXHASH_INVALID : Nat := 0
def FRAMECOUNT_INVALID : Nat := 0
def TEXTURE_KILL_MULTIPLIER : Nat := 2
def TEXTURE_KILL_THRESHOLD : Nat := 120
def TEXTURE_POOL_KILL_THRESHOLD : Nat := 3
def TEXTURE_POOL_MEMORY_LIMIT : Nat := 64 * 1024 * 1024

/-! ### PC_TexFormat

The enum `PC_TexFormat` is declared in `VideoCommon/TextureDecoder.h`, which is
not part of the sources at hand; only distinctness of the enumerators matters
for the properties below, so they are numbered in declaration order. -/

def PC_TEX_FMT_NONE : Nat := 0
def PC_TEX_FMT_BGRA32 : Nat := 1
def PC_TEX_FMT_RGBA32 : Nat := 2
def PC_TEX_FMT_IA4_AS_IA8 : Nat := 3
def PC_TEX_FMT_IA8 : Nat := 4
def PC_TEX_FMT_RGB565 : Nat := 5
def PC_TEX_FMT_DXT1 : Nat := 6
def PC_TEX_FMT_DXT3 : Nat := 7
def PC_TEX_FMT_DXT5 : Nat := 8

/-! ### TCacheEntryConfig (TextureEncoder.h)

`width`, `height`, `levels`, `layers` are `u32`; `pcformat` is the enum value. -/

structure TCacheEntryConfig where
  width : Nat := 0
  height : Nat := 0
  levels : Nat := 1
  layers : Nat := 1
  rendertarget : Bool := false
  materialmap : Bool := false
  pcformat : Nat := PC_TEX_FMT_NONE
deriving DecidableEq, Repr

namespace TCacheEntryConfig

/-- `TCacheEntryConfig::GetSizeInBytes`.  All arithmetic is `u32`
(wrap-around modulo `2^32`); `(x + 3) & ~3u` is `&&& 0xFFFFFFFC`, and the
final `std::max(result, 4096u)` is `max result 4096`. -/
def GetSizeInBytes (c : TCacheEntryConfig) : Nat :=
  let result : Nat :=
    if c.pcformat = PC_TEX_FMT_BGRA32 ∨ c.pcformat = PC_TEX_FMT_RGBA32 then
      ((((c.width + 3) % 2 ^ 32) &&& 0xFFFFFFFC) *
        (((c.height + 3) % 2 ^ 32) &&& 0xFFFFFFFC) * 4) % 2 ^ 32
    else if c.pcformat = PC_TEX_FMT_IA4_AS_IA8 ∨ c.pcformat = PC_TEX_FMT_IA8 ∨
        c.pcformat = PC_TEX_FMT_RGB565 then
      ((((c.width + 3) % 2 ^ 32) &&& 0xFFFFFFFC) *
        (((c.height + 3) % 2 ^ 32) &&& 0xFFFFFFFC) * 2) % 2 ^ 32
    else if c.pcformat = PC_TEX_FMT_DXT1 then
      ((((c.width + 3) % 2 ^ 32) >>> 2) * (((c.height + 3) % 2 ^ 32) >>> 2) * 8) % 2 ^ 32
    else if c.pcformat = PC_TEX_FMT_DXT3 ∨ c.pcformat = PC_TEX_FMT_DXT5 then
      ((((c.width + 3) % 2 ^ 32) >>> 2) * (((c.height + 3) % 2 ^ 32) >>> 2) * 16) % 2 ^ 32
    else 0
  let result := if 1 < c.levels ∨ c.rendertarget then (result + result * 2) % 2 ^ 32 else result
  let result := if c.materialmap then (result * 2) % 2 ^ 32 else result
  max result 4096

/-- `TCacheEntryConfig::Hasher::operator()`.  Every `(u64)x << k` is a 64-bit
shift, hence the `% 2^64`; the results are combined with bitwise or exactly as
in the source. -/
def Hasher (c : TCacheEntryConfig) : Nat :=
  (c.materialmap.toNat <<< 57) % 2 ^ 64 |||
  (c.rendertarget.toNat <<< 56) % 2 ^ 64 |||
  (c.pcformat <<< 48) % 2 ^ 64 |||
  (c.layers <<< 40) % 2 ^ 64 |||
  (c.levels <<< 32) % 2 ^ 64 |||
  (c.height <<< 16) % 2 ^ 64 |||
  c.width

end TCacheEntryConfig

/-- Uniqueness of a digit in base `B`: matching mixed-radix expansions have
equal digits and equal carries. -/
theorem digit_eq {B a b x y : Nat} (hB : 0 < B) (ha : a < B) (hb : b < B)
    (h : a + B * x = b + B * y) : a = b ∧ x = y := by
  have hab : a = b := by
    have := congrArg (· % B) h
    simpa [Nat.add_mul_mod_self_left, Nat.mod_eq_of_lt ha, Nat.mod_eq_of_lt hb] using this
  refine ⟨hab, ?_⟩
  subst hab
  exact Nat.eq_of_mul_eq_mul_left hB (Nat.add_left_cancel h)

/-- Decomposition of `Hasher` into a mixed-radix expansion when every field is
within the bit width of its field in the 64-bit hash word. -/
theorem Hasher_eq_sum (c : TCacheEntryConfig)
    (hw : c.width < 2 ^ 16) (hh : c.height < 2 ^ 16) (hv : c.levels < 2 ^ 8)
    (hl : c.layers < 2 ^ 8) (hp : c.pcformat < 2 ^ 8) :
    c.Hasher = c.width + 2 ^ 16 * (c.height + 2 ^ 16 * (c.levels + 2 ^ 8 *
      (c.layers + 2 ^ 8 * (c.pcformat + 2 ^ 8 *
        (c.rendertarget.toNat + 2 * c.materialmap.toNat))))) := by
  have hm : c.materialmap.toNat < 2 := Bool.toNat_lt _
  have hr : c.rendertarget.toNat < 2 := Bool.toNat_lt _
  unfold TCacheEntryConfig.Hasher
  rw [Nat.shiftLeft_eq, Nat.shiftLeft_eq, Nat.shiftLeft_eq, Nat.shiftLeft_eq,
    Nat.shiftLeft_eq, Nat.shiftLeft_eq]
  rw [Nat.mod_eq_of_lt (by omega), Nat.mod_eq_of_lt (by omega),
    Nat.mod_eq_of_lt (by omega), Nat.mod_eq_of_lt (by omega),
    Nat.mod_eq_of_lt (by omega), Nat.mod_eq_of_lt (by omega)]
  rw [Nat.or_assoc, Nat.or_assoc, Nat.or_assoc, Nat.or_assoc, Nat.or_assoc]
  rw [Nat.mul_comm c.materialmap.toNat, Nat.mul_comm c.rendertarget.toNat,
    Nat.mul_comm c.pcformat, Nat.mul_comm c.layers, Nat.mul_comm c.levels,
    Nat.mul_comm c.height]
  rw [← Nat.mul_add_lt_is_or (i := 16) hw c.height]
  rw [← Nat.mul_add_lt_is_or (i := 32) (by omega) c.levels]
  rw [← Nat.mul_add_lt_is_or (i := 40) (by omega) c.layers]
  rw [← Nat.mul_add_lt_is_or (i := 48) (by omega) c.pcformat]
  rw [← Nat.mul_add_lt_is_or (i := 56) (by omega) c.rendertarget.toNat]
  rw [← Nat.mul_add_lt_is_or (i := 57) (by omega) c.materialmap.toNat]
  ring

/-- C9: `TCacheEntryConfig::Hasher` is injective on in-range configs: equal
hashes of two configs whose `width`/`height` are below `2^16` and whose
`levels`/`layers`/`pcformat` are below `2^8` imply the configs are equal
(field-wise, which is exactly `TCacheEntryConfig::operator==`). -/
theorem Hasher_injective (c₁ c₂ : TCacheEntryConfig)
    (hw₁ : c₁.width < 2 ^ 16) (hh₁ : c₁.height < 2 ^ 16) (hv₁ : c₁.levels < 2 ^ 8)
    (hl₁ : c₁.layers < 2 ^ 8) (hp₁ : c₁.pcformat < 2 ^ 8)
    (hw₂ : c₂.width < 2 ^ 16) (hh₂ : c₂.height < 2 ^ 16) (hv₂ : c₂.levels < 2 ^ 8)
    (hl₂ : c₂.layers < 2 ^ 8) (hp₂ : c₂.pcformat < 2 ^ 8)
    (h : c₁.Hasher = c₂.Hasher) : c₁ = c₂ := by
  rw [Hasher_eq_sum c₁ hw₁ hh₁ hv₁ hl₁ hp₁, Hasher_eq_sum c₂ hw₂ hh₂ hv₂ hl₂ hp₂] at h
  obtain ⟨hweq, h⟩ := digit_eq (by norm_num) hw₁ hw₂ h
  obtain ⟨hheq, h⟩ := digit_eq (by norm_num) hh₁ hh₂ h
  obtain ⟨hveq, h⟩ := digit_eq (by norm_num) hv₁ hv₂ h
  obtain ⟨hleq, h⟩ := digit_eq (by norm_num) hl₁ hl₂ h
  obtain ⟨hpeq, h⟩ := digit_eq (by norm_num) hp₁ hp₂ h
  obtain ⟨hreq, hmeq⟩ := digit_eq (by norm_num) (Bool.toNat_lt _) (Bool.toNat_lt _) h
  obtain ⟨w₁, h₁, v₁, l₁, r₁, m₁, p₁⟩ := c₁
  obtain ⟨w₂, h₂, v₂, l₂, r₂, m₂, p₂⟩ := c₂
  simp only at hweq hheq hveq hleq hpeq hreq hmeq
  cases r₁ <;> cases r₂ <;> cases m₁ <;> cases m₂ <;> simp_all

/-- Witness for C9 at a concrete pair of (equal) in-range configs. -/
theorem Hasher_injective_witness :
    ({ width := 64, height := 32, levels := 2, layers := 1, rendertarget := true,
       materialmap := false, pcformat := PC_TEX_FMT_RGBA32 } : TCacheEntryConfig) =
    { width := 64, height := 32, levels := 2, layers := 1, rendertarget := true,
      materialmap := false, pcformat := PC_TEX_FMT_RGBA32 } :=
  Hasher_injective _ _ (by decide) (by decide) (by decide) (by decide) (by decide)
    (by decide) (by decide) (by decide) (by decide) (by decide) (by decide)

/-- C10: `TCacheEntryConfig::GetSizeInBytes` returns at least 4096 for every
configuration, including unknown pixel formats and zero width or height. -/
theorem GetSizeInBytes_ge_4096 (c : TCacheEntryConfig) :
    4096 ≤ c.GetSizeInBytes := by
  unfold TCacheEntryConfig.GetSizeInBytes
  exact Nat.le_max_right _ _

/-! ### Association lists

`std::unordered_map` / the shader usage maps are modelled as association
lists: `find`/`GetOrAdd` look the key up by key equality, `emplace`/updating
through the returned reference replaces the first binding of the key. -/

def alLookup {α β : Type} [DecidableEq α] (m : List (α × β)) (k : α) : Option β :=
  match m with
  | [] => none
  | (k', v) :: rest => if k' = k then some v else alLookup rest k

def alUpdate {α β : Type} [DecidableEq α] (m : List (α × β)) (k : α) (v : β) :
    List (α × β) :=
  match m with
  | [] => [(k, v)]
  | (k', v') :: rest => if k' = k then (k, v) :: rest else (k', v') :: alUpdate rest k v

theorem alLookup_alUpdate {α β : Type} [DecidableEq α] (m : List (α × β)) (k : α) (v : β) :
    alLookup (alUpdate m k v) k = some v := by
  induction m with
  | nil => simp [alLookup, alUpdate]
  | cons hd tl ih =>
    obtain ⟨k', v'⟩ := hd
    by_cases hk : k' = k <;> simp [alLookup, alUpdate, hk, ih]

theorem alUpdate_self {α β : Type} [DecidableEq α] (m : List (α × β)) (k : α) (v : β)
    (h : alLookup m k = some v) : alUpdate m k v = m := by
  induction m with
  | nil => simp [alLookup] at h
  | cons hd tl ih =>
    obtain ⟨k', v'⟩ := hd
    by_cases hk : k' = k
    · subst hk
      simp [alLookup] at h
      simp [alUpdate, h]
    · simp [alLookup, hk] at h
      simp [alUpdate, hk, ih h]

/-! ### ObjectCache (VideoBackends/Vulkan/ObjectCache.cpp)

`VkPipeline`/`VkShaderModule` handles are `Nat`, `0` being `VK_NULL_HANDLE`.
`vkCreateGraphicsPipelines`, SPIR-V compilation (`ShaderCompiler::Compile*`)
and `Util::CreateShaderModule` are external to the translation unit and enter
the model as oracle functions. -/

def VK_NULL_HANDLE : Nat := 0

/-- The fields of `PipelineInfo` consumed by `ObjectCache::GetPipeline`
(declared in `ObjectCache.h`); each is a handle or a trivially-copyable state
word, modelled as `Nat`. -/
structure PipelineInfo where
  vertex_format : Nat
  pipeline_layout : Nat
  vs : Nat
  gs : Nat
  ps : Nat
  render_pass : Nat
  rasterization_state : Nat
  depth_stencil_state : Nat
  blend_state : Nat
  primitive_topology : Nat
deriving DecidableEq, Repr

/-- `ObjectCache::GetPipeline`: look the info up in `m_pipeline_objects`;
on a hit return the stored handle, otherwise build the Vulkan pipeline
(the big descriptor-filling block only shapes the creation call, abstracted
into the `create` oracle, which yields `VK_NULL_HANDLE` on failure) and
`emplace` the result under the info.  Returns the handle and the new map. -/
def GetPipeline (create : PipelineInfo → Nat)
    (pipeline_objects : List (PipelineInfo × Nat)) (info : PipelineInfo) :
    Nat × List (PipelineInfo × Nat) :=
  match alLookup pipeline_objects info with
  | some pipeline => (pipeline, pipeline_objects)
  | none =>
    let pipeline := create info
    (pipeline, (info, pipeline) :: pipeline_objects)

/-- C2: `ObjectCache::GetPipeline` is a cache: a hit returns the stored handle
and leaves the map unchanged (no pipeline is created), a miss creates and
inserts, and two consecutive calls with the same `PipelineInfo` return the
same handle. -/
theorem GetPipeline_cache (create : PipelineInfo → Nat)
    (m : List (PipelineInfo × Nat)) (info : PipelineInfo) :
    (∀ p, alLookup m info = some p → GetPipeline create m info = (p, m)) ∧
    (alLookup m info = none →
      GetPipeline create m info = (create info, (info, create info) :: m)) ∧
    (GetPipeline create ((GetPipeline create m info).2) info).1 =
      (GetPipeline create m info).1 := by
  refine ⟨?_, ?_, ?_⟩
  · intro p hp
    simp [GetPipeline, hp]
  · intro hp
    simp [GetPipeline, hp]
  · cases hp : alLookup m info with
    | some p => simp [GetPipeline, hp]
    | none => simp [GetPipeline, hp, alLookup]

/-- Witness for C2: a concrete hit, miss and repeated call. -/
theorem GetPipeline_cache_witness :
    GetPipeline (fun _ => 7) [(⟨1, 1, 1, 1, 1, 1, 1, 1, 1, 1⟩, 5)]
      ⟨1, 1, 1, 1, 1, 1, 1, 1, 1, 1⟩ = (5, [(⟨1, 1, 1, 1, 1, 1, 1, 1, 1, 1⟩, 5)]) :=
  (GetPipeline_cache (fun _ => 7) [(⟨1, 1, 1, 1, 1, 1, 1, 1, 1, 1⟩, 5)]
    ⟨1, 1, 1, 1, 1, 1, 1, 1, 1, 1⟩).1 5 (by decide)

/-! ### Shader caches (ObjectCache.cpp)

A shader UID (`VertexShaderUid`/`GeometryShaderUid`/`PixelShaderUid`) is an
opaque key; SPIR-V binaries are opaque blobs.  Both are modelled as `Nat`.
`vkShaderItem` is declared in `ObjectCache.h`: an `std::atomic_flag
initialized`, a `bool compiled` and a `VkShaderModule module`; the atomic flag
is modelled sequentially as a `Bool` (`test_and_set` returns the old value and
sets it).  A `ShaderCache` couples the in-memory usage map (`shader_map`,
`GetOrAdd` semantics) with the on-disk `LinearDiskCache`, modelled as the list
of appended `(uid, binary)` records. -/

structure VkShaderItem where
  initialized : Bool := false
  compiled : Bool := false
  module : Nat := VK_NULL_HANDLE
deriving DecidableEq, Repr

structure ShaderCacheState where
  shader_map : List (Nat × VkShaderItem) := []
  disk_cache : List (Nat × Nat) := []
deriving DecidableEq, Repr

/-- `ObjectCache::CompileVertexShaderForUid`: generate the source for the UID,
compile it to SPIR-V (`compile` oracle, `none` on failure), create the Vulkan
module (`createModule` oracle, `VK_NULL_HANDLE` on failure) and append the
SPIR-V to the disk cache only when the module was created successfully; the
item is always marked compiled, keeping a null module on failure. -/
def CompileVertexShaderForUid (compile : Nat → Option Nat) (createModule : Nat → Nat)
    (uid : Nat) (it : VkShaderItem) (disk_cache : List (Nat × Nat)) :
    VkShaderItem × List (Nat × Nat) :=
  match compile uid with
  | none => ({ it with compiled := true, module := VK_NULL_HANDLE }, disk_cache)
  | some spv =>
    let module := createModule spv
    let disk_cache := if module ≠ VK_NULL_HANDLE then disk_cache ++ [(uid, spv)] else disk_cache
    ({ it with compiled := true, module := module }, disk_cache)

/-- `ObjectCache::CompileGeometryShaderForUid` (same shape as the vertex
variant; only the generator/compiler entry points and statistics differ). -/
def CompileGeometryShaderForUid (compile : Nat → Option Nat) (createModule : Nat → Nat)
    (uid : Nat) (it : VkShaderItem) (disk_cache : List (Nat × Nat)) :
    VkShaderItem × List (Nat × Nat) :=
  match compile uid with
  | none => ({ it with compiled := true, module := VK_NULL_HANDLE }, disk_cache)
  | some spv =>
    let module := createModule spv
    let disk_cache := if module ≠ VK_NULL_HANDLE then disk_cache ++ [(uid, spv)] else disk_cache
    ({ it with compiled := true, module := module }, disk_cache)

/-- `ObjectCache::CompilePixelShaderForUid` (same shape as the vertex
variant). -/
def CompilePixelShaderForUid (compile : Nat → Option Nat) (createModule : Nat → Nat)
    (uid : Nat) (it : VkShaderItem) (disk_cache : List (Nat × Nat)) :
    VkShaderItem × List (Nat × Nat) :=
  match compile uid with
  | none => ({ it with compiled := true, module := VK_NULL_HANDLE }, disk_cache)
  | some spv =>
    let module := createModule spv
    let disk_cache := if module ≠ VK_NULL_HANDLE then disk_cache ++ [(uid, spv)] else disk_cache
    ({ it with compiled := true, module := module }, disk_cache)

/-- `ObjectCache::GetVertexShaderForUid`: `GetOrAdd` the item for the UID
(inserting a default item on a miss), `test_and_set` the initialized flag;
if it was already set return the cached module, otherwise compile.  The third
component reports whether a compilation was performed. -/
def GetVertexShaderForUid (compile : Nat → Option Nat) (createModule : Nat → Nat)
    (st : ShaderCacheState) (uid : Nat) : Nat × ShaderCacheState × Bool :=
  let it := (alLookup st.shader_map uid).getD {}
  if it.initialized then (it.module, { st with shader_map := alUpdate st.shader_map uid it }, false)
  else
    let it := { it with initialized := true }
    let (it, disk) := CompileVertexShaderForUid compile createModule uid it st.disk_cache
    (it.module, { shader_map := alUpdate st.shader_map uid it, disk_cache := disk }, true)

/-- `ObjectCache::GetGeometryShaderForUid` (same shape). -/
def GetGeometryShaderForUid (compile : Nat → Option Nat) (createModule : Nat → Nat)
    (st : ShaderCacheState) (uid : Nat) : Nat × ShaderCacheState × Bool :=
  let it := (alLookup st.shader_map uid).getD {}
  if it.initialized then (it.module, { st with shader_map := alUpdate st.shader_map uid it }, false)
  else
    let it := { it with initialized := true }
    let (it, disk) := CompileGeometryShaderForUid compile createModule uid it st.disk_cache
    (it.module, { shader_map := alUpdate st.shader_map uid it, disk_cache := disk }, true)

/-- `ObjectCache::GetPixelShaderForUid` (same shape). -/
def GetPixelShaderForUid (compile : Nat → Option Nat) (createModule : Nat → Nat)
    (st : ShaderCacheState) (uid : Nat) : Nat × ShaderCacheState × Bool :=
  let it := (alLookup st.shader_map uid).getD {}
  if it.initialized then (it.module, { st with shader_map := alUpdate st.shader_map uid it }, false)
  else
    let it := { it with initialized := true }
    let (it, disk) := CompilePixelShaderForUid compile createModule uid it st.disk_cache
    (it.module, { shader_map := alUpdate st.shader_map uid it, disk_cache := disk }, true)

/-- C3: for each of the three shader stages, `Compile*ShaderForUid` appends
the compiled binary to the on-disk cache keyed by the UID iff both SPIR-V
compilation and module creation succeed; on any failure nothing is appended,
but the item still records a null module and is marked compiled. -/
theorem CompileShaderForUid_disk_append (compile : Nat → Option Nat)
    (createModule : Nat → Nat) (uid : Nat) (it : VkShaderItem) (disk : List (Nat × Nat)) :
    (∀ spv, compile uid = some spv → createModule spv ≠ VK_NULL_HANDLE →
      (CompileVertexShaderForUid compile createModule uid it disk).2 = disk ++ [(uid, spv)] ∧
      (CompileGeometryShaderForUid compile createModule uid it disk).2 = disk ++ [(uid, spv)] ∧
      (CompilePixelShaderForUid compile createModule uid it disk).2 = disk ++ [(uid, spv)]) ∧
    ((compile uid = none ∨ ∀ spv, compile uid = some spv → createModule spv = VK_NULL_HANDLE) →
      (CompileVertexShaderForUid compile createModule uid it disk).2 = disk ∧
      (CompileGeometryShaderForUid compile createModule uid it disk).2 = disk ∧
      (CompilePixelShaderForUid compile createModule uid it disk).2 = disk ∧
      (CompileVertexShaderForUid compile createModule uid it disk).1.module = VK_NULL_HANDLE ∧
      (CompileVertexShaderForUid compile createModule uid it disk).1.compiled = true) := by
  constructor
  · intro spv hspv hmod
    simp [CompileVertexShaderForUid, CompileGeometryShaderForUid,
      CompilePixelShaderForUid, hspv, hmod]
  · intro hfail
    cases hspv : compile uid with
    | none =>
      simp [CompileVertexShaderForUid, CompileGeometryShaderForUid,
        CompilePixelShaderForUid, hspv]
    | some spv =>
      cases hfail with
      | inl h => rw [h] at hspv; cases hspv
      | inr h =>
        have hmod := h spv hspv
        simp [CompileVertexShaderForUid, CompileGeometryShaderForUid,
          CompilePixelShaderForUid, hspv, hmod]

/-- Witness for C3: a successful compile appends, a failed module creation
does not. -/
theorem CompileShaderForUid_disk_append_witness :
    (CompileVertexShaderForUid (fun u => some (u + 1)) (fun s => s) 3 {} []).2 =
      [] ++ [(3, 4)] ∧
    (CompileVertexShaderForUid (fun u => some (u + 1)) (fun _ => 0) 3 {} []).2 = [] := by
  constructor
  · exact ((CompileShaderForUid_disk_append (fun u => some (u + 1)) (fun s => s) 3 {} []).1
      4 rfl (by decide)).1
  · exact ((CompileShaderForUid_disk_append (fun u => some (u + 1)) (fun _ => 0) 3 {} []).2
      (Or.inr (fun _ _ => rfl))).1

/-- The compile-at-most-once contract of a `Get*ShaderForUid` function: on a
UID not yet in the map the call compiles (third component `true`) and caches
the resulting module under the UID — a null module when SPIR-V compilation or
module creation failed — and a repeated call with the same UID returns the
cached module and state unchanged without compiling. -/
def CompileOnceSpec
    (get : (Nat → Option Nat) → (Nat → Nat) → ShaderCacheState → Nat →
      Nat × ShaderCacheState × Bool) : Prop :=
  ∀ (compile : Nat → Option Nat) (createModule : Nat → Nat)
    (st : ShaderCacheState) (uid : Nat),
    (alLookup st.shader_map uid = none →
      (get compile createModule st uid).2.2 = true ∧
      alLookup (get compile createModule st uid).2.1.shader_map uid =
        some { initialized := true, compiled := true,
               module := (get compile createModule st uid).1 } ∧
      ((compile uid = none ∨ ∀ spv, compile uid = some spv → createModule spv = VK_NULL_HANDLE) →
        (get compile createModule st uid).1 = VK_NULL_HANDLE)) ∧
    (get compile createModule ((get compile createModule st uid).2.1) uid =
      ((get compile createModule st uid).1, (get compile createModule st uid).2.1, false))

theorem alUpdate_alUpdate {α β : Type} [DecidableEq α] (m : List (α × β)) (k : α) (v : β) :
    alUpdate (alUpdate m k v) k v = alUpdate m k v :=
  alUpdate_self _ _ _ (alLookup_alUpdate m k v)

theorem compileOnce_vertex : CompileOnceSpec GetVertexShaderForUid := by
  intro compile createModule st uid
  obtain ⟨map, disk⟩ := st
  constructor
  · intro hnone
    simp only [GetVertexShaderForUid, hnone, Option.getD_none]
    cases hspv : compile uid with
    | none => simp [CompileVertexShaderForUid, hspv, alLookup_alUpdate]
    | some spv =>
      by_cases hmod : createModule spv = VK_NULL_HANDLE
      · simp [CompileVertexShaderForUid, hspv, hmod, alLookup_alUpdate]
      · simp [CompileVertexShaderForUid, hspv, hmod, alLookup_alUpdate]
  · cases hl : alLookup map uid with
    | none =>
      simp only [GetVertexShaderForUid, hl, Option.getD_none]
      cases hspv : compile uid with
      | none =>
        simp only [CompileVertexShaderForUid, hspv]
        simp [alLookup_alUpdate, alUpdate_alUpdate]
      | some spv =>
        simp only [CompileVertexShaderForUid, hspv]
        simp [alLookup_alUpdate, alUpdate_alUpdate]
    | some it =>
      cases hinit : it.initialized with
      | true =>
        simp only [GetVertexShaderForUid, hl, Option.getD_some, hinit, if_true]
        rw [alUpdate_self map uid it hl]
        simp [GetVertexShaderForUid, hl, hinit, alUpdate_self map uid it hl]
      | false =>
        simp only [GetVertexShaderForUid, hl, Option.getD_some, hinit, Bool.false_eq_true,
          if_false]
        cases hspv : compile uid with
        | none =>
          simp only [CompileVertexShaderForUid, hspv]
          simp [alLookup_alUpdate, alUpdate_alUpdate]
        | some spv =>
          simp only [CompileVertexShaderForUid, hspv]
          simp [alLookup_alUpdate, alUpdate_alUpdate]

/-- C8: each of `ObjectCache::Get{Vertex,Geometry,Pixel}ShaderForUid`
attempts compilation at most once per UID: the first call compiles and caches
the module (a `VK_NULL_HANDLE` when compilation fails), every later call with
the same UID returns the cached module without recompiling. -/
theorem GetShaderForUid_compile_once :
    CompileOnceSpec GetVertexShaderForUid ∧
    CompileOnceSpec GetGeometryShaderForUid ∧
    CompileOnceSpec GetPixelShaderForUid := by
  refine ⟨compileOnce_vertex, ?_, ?_⟩
  · rw [show GetGeometryShaderForUid = GetVertexShaderForUid from rfl]
    exact compileOnce_vertex
  · rw [show GetPixelShaderForUid = GetVertexShaderForUid from rfl]
    exact compileOnce_vertex

/-- Witness for C8 at a concrete failing compile: the first call caches a null
module, the second call returns it without compiling. -/
theorem GetShaderForUid_compile_once_witness :
    (GetVertexShaderForUid (fun _ => none) (fun s => s) {} 5).2.2 = true ∧
    (GetVertexShaderForUid (fun _ => none) (fun s => s) {} 5).1 = VK_NULL_HANDLE := by
  have h := (GetShaderForUid_compile_once.1 (fun _ => none) (fun s => s) {} 5).1 rfl
  exact ⟨h.1, h.2.2 (Or.inl rfl)⟩

/-! ### OGL::TextureCache::LoadLut (VideoCommon/RenderBase.cpp, OGL section)

The palette-dedup state `m_last_lutFmt`/`m_last_addr`/`m_last_size`/
`m_last_hash`.  `addr` is a pointer value, `m_last_hash` a `u64`; `GetHash64`
(in `Common/Hash.cpp`, outside this translation unit) enters as an oracle
`hash64 addr size samples`.  The streaming side effect
(`s_palette_stream_buffer->Stream`) is reported as the boolean second
component of the result. -/

structure LutState where
  last_lutFmt : Nat := 0
  last_addr : Nat := 0
  last_size : Nat := 0
  last_hash : Nat := 0
deriving DecidableEq, Repr

structure LutConfig where
  iSafeTextureCache_ColorSamples : Nat
  bSupportsPaletteConversion : Bool
deriving DecidableEq, Repr

/-- `OGL::TextureCache::LoadLut`.  Note the early-return path additionally
requires `m_last_hash` to be truthy (nonzero). -/
def LoadLut (hash64 : Nat → Nat → Nat → Nat) (cfg : LutConfig) (s : LutState)
    (lutFmt addr size : Nat) : LutState × Bool :=
  if lutFmt = s.last_lutFmt ∧ addr = s.last_addr ∧ size = s.last_size ∧ s.last_hash ≠ 0 then
    let hash := hash64 addr size cfg.iSafeTextureCache_ColorSamples
    if hash = s.last_hash then (s, false)
    else
      let s := { s with last_hash := hash }
      let s := { s with last_lutFmt := lutFmt, last_addr := addr, last_size := size }
      (s, cfg.bSupportsPaletteConversion)
  else
    let s := { s with last_hash := hash64 addr size cfg.iSafeTextureCache_ColorSamples }
    let s := { s with last_lutFmt := lutFmt, last_addr := addr, last_size := size }
    (s, cfg.bSupportsPaletteConversion)

/-- C6 counterexample: the claim as stated is false when the previously stored
hash is zero.  With a hash oracle yielding 0, a first call stores hash 0;
a second call with the same format, address and size, whose data hash (0)
equals the stored hash, nevertheless streams the palette again, because the
code's dedup condition additionally requires `m_last_hash` to be nonzero. -/
theorem LoadLut_zero_hash_counterexample :
    (LoadLut (fun _ _ _ => 0) ⟨64, true⟩ {} 1 100 32).1 =
      { last_lutFmt := 1, last_addr := 100, last_size := 32, last_hash := 0 } ∧
    (fun _ _ _ => (0 : Nat)) 100 32 64 =
      ((LoadLut (fun _ _ _ => 0) ⟨64, true⟩ {} 1 100 32).1).last_hash ∧
    (LoadLut (fun _ _ _ => 0) ⟨64, true⟩
      ((LoadLut (fun _ _ _ => 0) ⟨64, true⟩ {} 1 100 32).1) 1 100 32).2 = true := by
  refine ⟨by decide, by decide, by decide⟩

/-- C6 (amended): when called with the same `lutFmt`, `addr` and `size` as
recorded, a nonzero stored hash, and data hashing to the stored hash, `LoadLut`
returns without streaming and without touching the recorded state; whenever
the format, address, size or content hash differs from what is recorded, it
streams the palette iff palette conversion is supported and records the new
`(lutFmt, addr, size, hash)`. -/
theorem LoadLut_dedup (hash64 : Nat → Nat → Nat → Nat) (cfg : LutConfig)
    (s : LutState) (lutFmt addr size : Nat) :
    (lutFmt = s.last_lutFmt → addr = s.last_addr → size = s.last_size →
      s.last_hash ≠ 0 →
      hash64 addr size cfg.iSafeTextureCache_ColorSamples = s.last_hash →
      LoadLut hash64 cfg s lutFmt addr size = (s, false)) ∧
    (¬(lutFmt = s.last_lutFmt ∧ addr = s.last_addr ∧ size = s.last_size ∧
        hash64 addr size cfg.iSafeTextureCache_ColorSamples = s.last_hash) →
      LoadLut hash64 cfg s lutFmt addr size =
        ({ last_lutFmt := lutFmt, last_addr := addr, last_size := size,
           last_hash := hash64 addr size cfg.iSafeTextureCache_ColorSamples },
         cfg.bSupportsPaletteConversion)) := by
  constructor
  · intro h1 h2 h3 h4 h5
    subst h1 h2 h3
    simp [LoadLut, h4, h5]
  · intro hdiff
    by_cases hguard : lutFmt = s.last_lutFmt ∧ addr = s.last_addr ∧ size = s.last_size ∧
        s.last_hash ≠ 0
    · obtain ⟨h1, h2, h3, h4⟩ := hguard
      have hhash : hash64 addr size cfg.iSafeTextureCache_ColorSamples ≠ s.last_hash := by
        intro h
        exact hdiff ⟨h1, h2, h3, h⟩
      subst h1 h2 h3
      simp [LoadLut, h4, hhash]
    · simp only [LoadLut, hguard, if_false]

/-- Witness for C6: a dedup hit with a nonzero hash does not stream; changing
the address streams and re-records. -/
theorem LoadLut_dedup_witness :
    LoadLut (fun _ _ _ => 42) ⟨64, true⟩
      { last_lutFmt := 1, last_addr := 100, last_size := 32, last_hash := 42 } 1 100 32 =
      ({ last_lutFmt := 1, last_addr := 100, last_size := 32, last_hash := 42 }, false) ∧
    LoadLut (fun _ _ _ => 42) ⟨64, true⟩
      { last_lutFmt := 1, last_addr := 100, last_size := 32, last_hash := 42 } 1 200 32 =
      ({ last_lutFmt := 1, last_addr := 200, last_size := 32, last_hash := 42 }, true) := by
  constructor
  · exact (LoadLut_dedup (fun _ _ _ => 42) ⟨64, true⟩
      { last_lutFmt := 1, last_addr := 100, last_size := 32, last_hash := 42 } 1 100 32).1
      rfl rfl rfl (by decide) rfl
  · exact (LoadLut_dedup (fun _ _ _ => 42) ⟨64, true⟩
      { last_lutFmt := 1, last_addr := 100, last_size := 32, last_hash := 42 } 1 200 32).2
      (by decide)

/-! ### VertexShaderManager (VideoCommon/VertexShaderManager.cpp)

The dirty-tracking statics of the file: the `{min, max}` change intervals are
C++ `int` pairs (sentinel `-1` meaning empty), `s_materials_changed` is an
`int` used as a 4-bit mask (only values 0..15 occur), `s_lights_phong[8]`
holds the last-seen configuration integers.  The XF memory region bounds come
from `VideoCommon/XFMemory.h`. -/

def XFMEM_POSMATRICES_END : Nat := 0x100
def XFMEM_NORMALMATRICES : Nat := 0x400
def XFMEM_NORMALMATRICES_END : Nat := 0x460
def XFMEM_POSTMATRICES : Nat := 0x500
def XFMEM_POSTMATRICES_END : Nat := 0x600
def XFMEM_LIGHTS : Nat := 0x600
def XFMEM_LIGHTS_END : Nat := 0x680

/-- Fields of `TMatrixIndexA` (CPMemory.h): 6-bit texture matrix indices. -/
structure TMatrixIndexA where
  Tex0MtxIdx : Nat := 0
  Tex1MtxIdx : Nat := 0
  Tex2MtxIdx : Nat := 0
  Tex3MtxIdx : Nat := 0
deriving DecidableEq, Repr

/-- Fields of `TMatrixIndexB` (CPMemory.h). -/
structure TMatrixIndexB where
  Tex4MtxIdx : Nat := 0
  Tex5MtxIdx : Nat := 0
  Tex6MtxIdx : Nat := 0
  Tex7MtxIdx : Nat := 0
deriving DecidableEq, Repr

/-- The part of `g_main_cp_state` consumed here. -/
structure CPState where
  matrix_index_a : TMatrixIndexA := {}
  matrix_index_b : TMatrixIndexB := {}
deriving DecidableEq, Repr

/-- The `s_lights_phong[8]` array of last-seen config integers. -/
structure PhongState where
  p0 : Int := 0
  p1 : Int := 0
  p2 : Int := 0
  p3 : Int := 0
  p4 : Int := 0
  p5 : Int := 0
  p6 : Int := 0
  p7 : Int := 0
deriving DecidableEq, Repr

/-- The dirty-tracking statics of `VertexShaderManager`. -/
structure VSMState where
  tex_matrices_changed : Bool × Bool := (false, false)
  transform_matrices_changed : Int × Int := (0, 0)
  normal_matrices_changed : Int × Int := (0, 0)
  postTransformMatricesChanged : Int × Int := (0, 0)
  lights_changed : Int × Int := (0, 0)
  materials_changed : Nat := 0
  lights_phong : PhongState := {}
  bViewportChanged : Bool := false
  bProjectionChanged : Bool := false
deriving DecidableEq, Repr

/-- `VertexShaderManager::Dirty`: mark every region of the constant state as
changed (the full interval for each region, both texture-matrix flags, the
projection flag, all four material bits) and zero `s_lights_phong`. -/
def Dirty (s : VSMState) : VSMState :=
  { s with
    transform_matrices_changed := (0, 256),
    normal_matrices_changed := (0, 96),
    postTransformMatricesChanged := (0, 256),
    lights_changed := (0, 0x80),
    tex_matrices_changed := (true, true),
    bProjectionChanged := true,
    materials_changed := 15,
    lights_phong := {} }

/-- `VertexShaderManager::InvalidateXFRange(start, end)`: flag the texture
matrices whose 12-float window contains `start`, then widen each region's
dirty interval by the overlap of `[start, end)` with the region.  `start` and
`end` are `u32`; the recorded intervals are C++ `int`s. -/
def InvalidateXFRange (cp : CPState) (start endAddr : Nat) (s : VSMState) : VSMState :=
  let ma := cp.matrix_index_a
  let mb := cp.matrix_index_b
  let s :=
    if (ma.Tex0MtxIdx * 4 ≤ start ∧ start < ma.Tex0MtxIdx * 4 + 12) ∨
       (ma.Tex1MtxIdx * 4 ≤ start ∧ start < ma.Tex1MtxIdx * 4 + 12) ∨
       (ma.Tex2MtxIdx * 4 ≤ start ∧ start < ma.Tex2MtxIdx * 4 + 12) ∨
       (ma.Tex3MtxIdx * 4 ≤ start ∧ start < ma.Tex3MtxIdx * 4 + 12) then
      { s with tex_matrices_changed := (true, s.tex_matrices_changed.2) }
    else s
  let s :=
    if (mb.Tex4MtxIdx * 4 ≤ start ∧ start < mb.Tex4MtxIdx * 4 + 12) ∨
       (mb.Tex5MtxIdx * 4 ≤ start ∧ start < mb.Tex5MtxIdx * 4 + 12) ∨
       (mb.Tex6MtxIdx * 4 ≤ start ∧ start < mb.Tex6MtxIdx * 4 + 12) ∨
       (mb.Tex7MtxIdx * 4 ≤ start ∧ start < mb.Tex7MtxIdx * 4 + 12) then
      { s with tex_matrices_changed := (s.tex_matrices_changed.1, true) }
    else s
  let s :=
    if start < XFMEM_POSMATRICES_END then
      let hi : Int := if XFMEM_POSMATRICES_END < endAddr then (XFMEM_POSMATRICES_END : Int)
        else (endAddr : Int)
      if s.transform_matrices_changed.1 = -1 then
        { s with transform_matrices_changed := ((start : Int), hi) }
      else
        let lo := if (start : Int) < s.transform_matrices_changed.1 then (start : Int)
          else s.transform_matrices_changed.1
        let hi := if s.transform_matrices_changed.2 < (endAddr : Int) then hi
          else s.transform_matrices_changed.2
        { s with transform_matrices_changed := (lo, hi) }
    else s
  let s :=
    if start < XFMEM_NORMALMATRICES_END ∧ XFMEM_NORMALMATRICES < endAddr then
      let lo : Int := if start < XFMEM_NORMALMATRICES then 0
        else (start : Int) - (XFMEM_NORMALMATRICES : Int)
      let hi : Int := if endAddr < XFMEM_NORMALMATRICES_END then
        (endAddr : Int) - (XFMEM_NORMALMATRICES : Int)
        else (XFMEM_NORMALMATRICES_END : Int) - (XFMEM_NORMALMATRICES : Int)
      if s.normal_matrices_changed.1 = -1 then
        { s with normal_matrices_changed := (lo, hi) }
      else
        let lo := if lo < s.normal_matrices_changed.1 then lo else s.normal_matrices_changed.1
        let hi := if s.normal_matrices_changed.2 < hi then hi else s.normal_matrices_changed.2
        { s with normal_matrices_changed := (lo, hi) }
    else s
  let s :=
    if start < XFMEM_POSTMATRICES_END ∧ XFMEM_POSTMATRICES < endAddr then
      let lo : Int := if start < XFMEM_POSTMATRICES then (XFMEM_POSTMATRICES : Int)
        else (start : Int) - (XFMEM_POSTMATRICES : Int)
      let hi : Int := if endAddr < XFMEM_POSTMATRICES_END then
        (endAddr : Int) - (XFMEM_POSTMATRICES : Int)
        else (XFMEM_POSTMATRICES_END : Int) - (XFMEM_POSTMATRICES : Int)
      if s.postTransformMatricesChanged.1 = -1 then
        { s with postTransformMatricesChanged := (lo, hi) }
      else
        let lo := if lo < s.postTransformMatricesChanged.1 then lo
          else s.postTransformMatricesChanged.1
        let hi := if s.postTransformMatricesChanged.2 < hi then hi
          else s.postTransformMatricesChanged.2
        { s with postTransformMatricesChanged := (lo, hi) }
    else s
  let s :=
    if start < XFMEM_LIGHTS_END ∧ XFMEM_LIGHTS < endAddr then
      let lo : Int := if start < XFMEM_LIGHTS then (XFMEM_LIGHTS : Int)
        else (start : Int) - (XFMEM_LIGHTS : Int)
      let hi : Int := if endAddr < XFMEM_LIGHTS_END then (endAddr : Int) - (XFMEM_LIGHTS : Int)
        else (XFMEM_LIGHTS_END : Int) - (XFMEM_LIGHTS : Int)
      if s.lights_changed.1 = -1 then
        { s with lights_changed := (lo, hi) }
      else
        let lo := if lo < s.lights_changed.1 then lo else s.lights_changed.1
        let hi := if s.lights_changed.2 < hi then hi else s.lights_changed.2
        { s with lights_changed := (lo, hi) }
    else s
  s

/-- One recorded effect of `SetConstants`.  The floating-point payloads the
code computes and stores are abstracted away; what is kept is which constant
region is written (with the start offset and multi-write count where the code
computes them) and the renderer calls, in program order.  The C++ divisions
producing `startn`/`endn` are `int` divisions, hence `Int.tdiv`. -/
inductive VSMWrite where
  /-- `SetConstant4(C_PHONG + slot, ...)`. -/
  | phong (slot : Nat)
  /-- `SetMultiConstant4v(C_TRANSFORMMATRICES + startn, count, ...)`. -/
  | transformMatrices (startn count : Int)
  /-- `SetMultiConstant3v(C_NORMALMATRICES + startn, count, ...)`. -/
  | normalMatrices (startn count : Int)
  /-- `SetMultiConstant4v(C_POSTTRANSFORMMATRICES + startn, count, ...)`. -/
  | postMatrices (startn count : Int)
  /-- `SetConstant4(C_LIGHTS + 5*i, color)`. -/
  | lightColor (i : Nat)
  /-- `SetConstant3v(C_LIGHTS + 5*i + 1, cosatt)`. -/
  | lightCosatt (i : Nat)
  /-- the distance-attenuation write at `C_LIGHTS + 5*i + 2`; `small` records
  which of the two branches (clamped 4-component or raw 3-component) ran. -/
  | lightDistatt (i : Nat) (small : Bool)
  /-- `SetConstant3v(C_LIGHTS + 5*i + 3, dpos)`. -/
  | lightDpos (i : Nat)
  /-- `SetConstant4(C_LIGHTS + 5*i + 4, normalized ddir)`. -/
  | lightDdir (i : Nat)
  /-- `SetConstant4(C_MATERIALS + slot, ...)`. -/
  | material (slot : Nat)
  /-- `SetMultiConstant4v(C_TEXMATRICES + 3*slot, 3, posMatrices + mtxIdx*4)`
  (slots 4..7 carry the `+ 12` offset of the B block). -/
  | texMatrices (slot mtxIdx : Nat)
  /-- `SetConstant4(C_DEPTHPARAMS, ...)`. -/
  | depthParams
  /-- `g_renderer->SetViewport()`. -/
  | rendererSetViewport
  /-- `g_renderer->GetPostProcessor()->OnProjectionLoaded(type)`. -/
  | onProjectionLoaded (ty : Nat)
  /-- `SetMultiConstant4v(C_PROJECTION, 4, correctedMtx.data)`. -/
  | projection
deriving DecidableEq, Repr

/-- The members of `g_ActiveConfig` (and the renderer/backend predicates)
that steer which writes `SetConstants` performs.  Members that only shape
floating-point payloads (`APIType`, `bSupportsReversedDepthRange`,
`fAspectRatioHack*`, `bFreeLook`, `iStereoMode`, projection hacks) are not
modelled: they never change which writes happen or the dirty bookkeeping. -/
structure VSMConfig where
  iRimBase : Int := 0
  iRimPower : Int := 0
  iRimIntesity : Int := 0
  iSpecularMultiplier : Int := 0
  iSimBumpStrength : Int := 0
  iSimBumpThreshold : Int := 0
  iSimBumpDetailBlend : Int := 0
  iSimBumpDetailFrequency : Int := 0
  bSupportsOversizedViewports : Bool := false
  bSupportsPostProcessing : Bool := false
  hasPostProcessor : Bool := false
deriving DecidableEq, Repr

/-- The XF-memory inputs that steer `SetConstants`' control flow: the
projection type and, per light, whether all three `distatt` components are
below `0.00001f` in absolute value (which selects the clamped
distance-attenuation write). -/
structure XFMem where
  projectionType : Nat := 0
  lightDistattSmall : Nat → Bool := fun _ => false

/-- First phong block of `SetConstants`: refresh `s_lights_phong[0..3]` from
the rim configuration and write `C_PHONG` when any of them changed. -/
def PhongRimBlock (cfg : VSMConfig) (s : VSMState) : VSMState × List VSMWrite :=
  if cfg.iRimBase ≠ s.lights_phong.p0 ∨ cfg.iRimPower ≠ s.lights_phong.p1 ∨
      cfg.iRimIntesity ≠ s.lights_phong.p2 ∨ cfg.iSpecularMultiplier ≠ s.lights_phong.p3 then
    ({ s with lights_phong := { s.lights_phong with
        p0 := cfg.iRimBase, p1 := cfg.iRimPower,
        p2 := cfg.iRimIntesity, p3 := cfg.iSpecularMultiplier } },
     [VSMWrite.phong 0])
  else (s, [])

/-- Second phong block: refresh `s_lights_phong[4..7]` from the simulated-bump
configuration and write `C_PHONG + 1` when any of them changed. -/
def PhongBumpBlock (cfg : VSMConfig) (s : VSMState) : VSMState × List VSMWrite :=
  if cfg.iSimBumpStrength ≠ s.lights_phong.p4 ∨ cfg.iSimBumpThreshold ≠ s.lights_phong.p5 ∨
      cfg.iSimBumpDetailBlend ≠ s.lights_phong.p6 ∨
      cfg.iSimBumpDetailFrequency ≠ s.lights_phong.p7 then
    ({ s with lights_phong := { s.lights_phong with
        p4 := cfg.iSimBumpStrength,
        p5 := cfg.iSimBumpThreshold, p6 := cfg.iSimBumpDetailBlend,
        p7 := cfg.iSimBumpDetailFrequency } },
     [VSMWrite.phong 1])
  else (s, [])

/-- Transform-matrix upload block of `SetConstants`. -/
def TransformMatricesBlock (s : VSMState) : VSMState × List VSMWrite :=
  if 0 ≤ s.transform_matrices_changed.1 then
    let startn := s.transform_matrices_changed.1.tdiv 4
    let endn := (s.transform_matrices_changed.2 + 3).tdiv 4
    ({ s with transform_matrices_changed := (-1, -1) },
     [VSMWrite.transformMatrices startn (endn - startn)])
  else (s, [])

/-- Normal-matrix upload block. -/
def NormalMatricesBlock (s : VSMState) : VSMState × List VSMWrite :=
  if 0 ≤ s.normal_matrices_changed.1 then
    let startn := s.normal_matrices_changed.1.tdiv 3
    let endn := (s.normal_matrices_changed.2 + 2).tdiv 3
    ({ s with normal_matrices_changed := (-1, -1) },
     [VSMWrite.normalMatrices startn (endn - startn)])
  else (s, [])

/-- Post-transform-matrix upload block. -/
def PostMatricesBlock (s : VSMState) : VSMState × List VSMWrite :=
  if 0 ≤ s.postTransformMatricesChanged.1 then
    let startn := s.postTransformMatricesChanged.1.tdiv 4
    let endn := (s.postTransformMatricesChanged.2 + 3).tdiv 4
    ({ s with postTransformMatricesChanged := (-1, -1) },
     [VSMWrite.postMatrices startn (endn - startn)])
  else (s, [])

/-- Lights upload block: five writes per light in `[istart, iend)`. -/
def LightsBlock (xf : XFMem) (s : VSMState) : VSMState × List VSMWrite :=
  if 0 ≤ s.lights_changed.1 then
    let istart := s.lights_changed.1.tdiv 0x10
    let iend := (s.lights_changed.2 + 15).tdiv 0x10
    ({ s with lights_changed := (-1, -1) },
     (List.range (iend - istart).toNat).flatMap (fun k =>
       let i := (istart + k).toNat
       [VSMWrite.lightColor i, VSMWrite.lightCosatt i,
        VSMWrite.lightDistatt i (xf.lightDistattSmall i),
        VSMWrite.lightDpos i, VSMWrite.lightDdir i]))
  else (s, [])

/-- Materials block: one `C_MATERIALS + i` write per set bit of
`s_materials_changed` (bits 0..1 ambient, bits 2..3 material colors). -/
def MaterialsBlock (s : VSMState) : VSMState × List VSMWrite :=
  if s.materials_changed ≠ 0 then
    ({ s with materials_changed := 0 },
     ((List.range 2).flatMap fun i =>
        if s.materials_changed &&& (1 <<< i) ≠ 0 then [VSMWrite.material i] else []) ++
     ((List.range 2).flatMap fun i =>
        if s.materials_changed &&& (1 <<< (i + 2)) ≠ 0 then [VSMWrite.material (i + 2)] else []))
  else (s, [])

/-- Texture-matrix block A: four 3-row uploads at the indices of
`matrix_index_a`. -/
def TexMatricesABlock (cp : CPState) (s : VSMState) : VSMState × List VSMWrite :=
  if s.tex_matrices_changed.1 then
    ({ s with tex_matrices_changed := (false, s.tex_matrices_changed.2) },
     [VSMWrite.texMatrices 0 cp.matrix_index_a.Tex0MtxIdx,
      VSMWrite.texMatrices 1 cp.matrix_index_a.Tex1MtxIdx,
      VSMWrite.texMatrices 2 cp.matrix_index_a.Tex2MtxIdx,
      VSMWrite.texMatrices 3 cp.matrix_index_a.Tex3MtxIdx])
  else (s, [])

/-- Texture-matrix block B. -/
def TexMatricesBBlock (cp : CPState) (s : VSMState) : VSMState × List VSMWrite :=
  if s.tex_matrices_changed.2 then
    ({ s with tex_matrices_changed := (s.tex_matrices_changed.1, false) },
     [VSMWrite.texMatrices 4 cp.matrix_index_b.Tex4MtxIdx,
      VSMWrite.texMatrices 5 cp.matrix_index_b.Tex5MtxIdx,
      VSMWrite.texMatrices 6 cp.matrix_index_b.Tex6MtxIdx,
      VSMWrite.texMatrices 7 cp.matrix_index_b.Tex7MtxIdx])
  else (s, [])

/-- Viewport block: write `C_DEPTHPARAMS`, call `SetViewport`, and when the
backend cannot use oversized viewports recompute the viewport correction and
re-flag the projection. -/
def ViewportBlock (cfg : VSMConfig) (s : VSMState) : VSMState × List VSMWrite :=
  if s.bViewportChanged then
    let s := { s with bViewportChanged := false }
    let s := if ¬cfg.bSupportsOversizedViewports then { s with bProjectionChanged := true } else s
    (s, [VSMWrite.depthParams, VSMWrite.rendererSetViewport])
  else (s, [])

/-- Projection block: notify the post processor, rebuild the (float)
projection matrix and write `C_PROJECTION`. -/
def ProjectionBlock (cfg : VSMConfig) (xf : XFMem) (s : VSMState) : VSMState × List VSMWrite :=
  if s.bProjectionChanged then
    let notify := if cfg.bSupportsPostProcessing ∧ cfg.hasPostProcessor then
      [VSMWrite.onProjectionLoaded xf.projectionType] else []
    ({ s with bProjectionChanged := false }, notify ++ [VSMWrite.projection])
  else (s, [])

/-- `VertexShaderManager::SetConstants`: run the eleven blocks of the source
in program order, threading the dirty state and concatenating the write
logs. -/
def SetConstants (cfg : VSMConfig) (cp : CPState) (xf : XFMem) (s : VSMState) :
    VSMState × List VSMWrite :=
  let r1 := PhongRimBlock cfg s
  let r2 := PhongBumpBlock cfg r1.1
  let r3 := TransformMatricesBlock r2.1
  let r4 := NormalMatricesBlock r3.1
  let r5 := PostMatricesBlock r4.1
  let r6 := LightsBlock xf r5.1
  let r7 := MaterialsBlock r6.1
  let r8 := TexMatricesABlock cp r7.1
  let r9 := TexMatricesBBlock cp r8.1
  let r10 := ViewportBlock cfg r9.1
  let r11 := ProjectionBlock cfg xf r10.1
  (r11.1, r1.2 ++ r2.2 ++ r3.2 ++ r4.2 ++ r5.2 ++ r6.2 ++ r7.2 ++ r8.2 ++ r9.2 ++
    r10.2 ++ r11.2)

/-- The fully-synced dirty state: every interval empty (`-1`), every flag
clear, `s_lights_phong` matching an all-zero configuration. -/
def cleanVSMState : VSMState :=
  { tex_matrices_changed := (false, false),
    transform_matrices_changed := (-1, -1),
    normal_matrices_changed := (-1, -1),
    postTransformMatricesChanged := (-1, -1),
    lights_changed := (-1, -1),
    materials_changed := 0,
    lights_phong := {},
    bViewportChanged := false,
    bProjectionChanged := false }

/-- C4 (code bug): `InvalidateXFRange(1279, 1281)` overlaps the post-matrix
region (`start < XFMEM_POSTMATRICES_END`, `end > XFMEM_POSTMATRICES`), so by
the claim the recorded dirty interval must contain
`[max(0, 1279 - 0x500), min(1281, 0x600) - 0x500] = [0, 1]`.  Instead the
code records `(0x500, 1) = (1280, 1)` — the branch writes the absolute region
base `XFMEM_POSTMATRICES` instead of `0` into the region-relative lower bound
(the sibling normal-matrix branch uses `0`) — whose lower end is not `≤ 0`,
and the next `SetConstants` then issues the post-matrix upload with the
non-positive count `1 - 320`, uploading no values at all. -/
theorem InvalidateXFRange_postMatrices_bug :
    (InvalidateXFRange {} 1279 1281 cleanVSMState).postTransformMatricesChanged = (1280, 1) ∧
    ¬((InvalidateXFRange {} 1279 1281 cleanVSMState).postTransformMatricesChanged.1 ≤ 0) ∧
    (SetConstants {} {} {} (InvalidateXFRange {} 1279 1281 cleanVSMState)).2 =
      [VSMWrite.postMatrices 320 (1 - 320)] := by
  refine ⟨by decide, by decide, ?_⟩
  decide

theorem PhongRimBlock_fst (cfg : VSMConfig) (s : VSMState) :
    (PhongRimBlock cfg s).1 = { s with lights_phong := { s.lights_phong with
      p0 := cfg.iRimBase, p1 := cfg.iRimPower,
      p2 := cfg.iRimIntesity, p3 := cfg.iSpecularMultiplier } } := by
  unfold PhongRimBlock
  split
  · rfl
  · next h =>
    push_neg at h
    obtain ⟨h0, h1, h2, h3⟩ := h
    obtain ⟨tex, t, n, p, l, m, ph, vw, pr⟩ := s
    obtain ⟨p0, p1, p2, p3, p4, p5, p6, p7⟩ := ph
    simp_all

theorem PhongBumpBlock_fst (cfg : VSMConfig) (s : VSMState) :
    (PhongBumpBlock cfg s).1 = { s with lights_phong := { s.lights_phong with
      p4 := cfg.iSimBumpStrength, p5 := cfg.iSimBumpThreshold,
      p6 := cfg.iSimBumpDetailBlend, p7 := cfg.iSimBumpDetailFrequency } } := by
  unfold PhongBumpBlock
  split
  · rfl
  · next h =>
    push_neg at h
    obtain ⟨h0, h1, h2, h3⟩ := h
    obtain ⟨tex, t, n, p, l, m, ph, vw, pr⟩ := s
    obtain ⟨p0, p1, p2, p3, p4, p5, p6, p7⟩ := ph
    simp_all

theorem TransformMatricesBlock_fst (s : VSMState) :
    (TransformMatricesBlock s).1 = if 0 ≤ s.transform_matrices_changed.1 then
      { s with transform_matrices_changed := (-1, -1) } else s := by
  unfold TransformMatricesBlock
  split <;> simp_all

theorem NormalMatricesBlock_fst (s : VSMState) :
    (NormalMatricesBlock s).1 = if 0 ≤ s.normal_matrices_changed.1 then
      { s with normal_matrices_changed := (-1, -1) } else s := by
  unfold NormalMatricesBlock
  split <;> simp_all

theorem PostMatricesBlock_fst (s : VSMState) :
    (PostMatricesBlock s).1 = if 0 ≤ s.postTransformMatricesChanged.1 then
      { s with postTransformMatricesChanged := (-1, -1) } else s := by
  unfold PostMatricesBlock
  split <;> simp_all

theorem LightsBlock_fst (xf : XFMem) (s : VSMState) :
    (LightsBlock xf s).1 = if 0 ≤ s.lights_changed.1 then
      { s with lights_changed := (-1, -1) } else s := by
  unfold LightsBlock
  split <;> simp_all

theorem MaterialsBlock_fst (s : VSMState) :
    (MaterialsBlock s).1 = { s with materials_changed := 0 } := by
  unfold MaterialsBlock
  split
  · rfl
  · next h =>
    obtain ⟨tex, t, n, p, l, m, ph, vw, pr⟩ := s
    simp_all

theorem TexMatricesABlock_fst (cp : CPState) (s : VSMState) :
    (TexMatricesABlock cp s).1 =
      { s with tex_matrices_changed := (false, s.tex_matrices_changed.2) } := by
  unfold TexMatricesABlock
  split
  · rfl
  · next h =>
    obtain ⟨⟨texa, texb⟩, t, n, p, l, m, ph, vw, pr⟩ := s
    simp_all

theorem TexMatricesBBlock_fst (cp : CPState) (s : VSMState) :
    (TexMatricesBBlock cp s).1 =
      { s with tex_matrices_changed := (s.tex_matrices_changed.1, false) } := by
  unfold TexMatricesBBlock
  split
  · rfl
  · next h =>
    obtain ⟨⟨texa, texb⟩, t, n, p, l, m, ph, vw, pr⟩ := s
    simp_all

theorem ViewportBlock_fst (cfg : VSMConfig) (s : VSMState) :
    (ViewportBlock cfg s).1 = { s with
      bViewportChanged := false,
      bProjectionChanged :=
        (s.bViewportChanged && !cfg.bSupportsOversizedViewports) || s.bProjectionChanged } := by
  unfold ViewportBlock
  obtain ⟨tex, t, n, p, l, m, ph, vw, pr⟩ := s
  cases vw <;> by_cases h : cfg.bSupportsOversizedViewports <;> simp_all

theorem ProjectionBlock_fst (cfg : VSMConfig) (xf : XFMem) (s : VSMState) :
    (ProjectionBlock cfg xf s).1 = { s with bProjectionChanged := false } := by
  unfold ProjectionBlock
  obtain ⟨tex, t, n, p, l, m, ph, vw, pr⟩ := s
  cases pr <;> simp_all

/-- The state left behind by `SetConstants`: `s_lights_phong` mirrors the
configuration, every consumed dirty interval is reset to `(-1, -1)` (an
interval whose recorded minimum was negative is left untouched), the material
bits, texture-matrix flags, viewport flag and projection flag are all
clear. -/
theorem SetConstants_state (cfg : VSMConfig) (cp : CPState) (xf : XFMem) (s : VSMState) :
    (SetConstants cfg cp xf s).1 =
      { tex_matrices_changed := (false, false),
        transform_matrices_changed := if 0 ≤ s.transform_matrices_changed.1 then (-1, -1)
          else s.transform_matrices_changed,
        normal_matrices_changed := if 0 ≤ s.normal_matrices_changed.1 then (-1, -1)
          else s.normal_matrices_changed,
        postTransformMatricesChanged := if 0 ≤ s.postTransformMatricesChanged.1 then (-1, -1)
          else s.postTransformMatricesChanged,
        lights_changed := if 0 ≤ s.lights_changed.1 then (-1, -1) else s.lights_changed,
        materials_changed := 0,
        lights_phong := ⟨cfg.iRimBase, cfg.iRimPower, cfg.iRimIntesity, cfg.iSpecularMultiplier,
          cfg.iSimBumpStrength, cfg.iSimBumpThreshold, cfg.iSimBumpDetailBlend,
          cfg.iSimBumpDetailFrequency⟩,
        bViewportChanged := false,
        bProjectionChanged := false } := by
  unfold SetConstants
  simp only [PhongRimBlock_fst, PhongBumpBlock_fst, TransformMatricesBlock_fst,
    NormalMatricesBlock_fst, PostMatricesBlock_fst, LightsBlock_fst, MaterialsBlock_fst,
    TexMatricesABlock_fst, TexMatricesBBlock_fst, ViewportBlock_fst, ProjectionBlock_fst]
  obtain ⟨⟨texa, texb⟩, t, n, p, l, m, ph, vw, pr⟩ := s
  split_ifs <;> rfl

theorem PhongRimBlock_idle (cfg : VSMConfig) (s : VSMState)
    (h0 : cfg.iRimBase = s.lights_phong.p0) (h1 : cfg.iRimPower = s.lights_phong.p1)
    (h2 : cfg.iRimIntesity = s.lights_phong.p2)
    (h3 : cfg.iSpecularMultiplier = s.lights_phong.p3) :
    PhongRimBlock cfg s = (s, []) := by
  simp [PhongRimBlock, h0, h1, h2, h3]

theorem PhongBumpBlock_idle (cfg : VSMConfig) (s : VSMState)
    (h4 : cfg.iSimBumpStrength = s.lights_phong.p4)
    (h5 : cfg.iSimBumpThreshold = s.lights_phong.p5)
    (h6 : cfg.iSimBumpDetailBlend = s.lights_phong.p6)
    (h7 : cfg.iSimBumpDetailFrequency = s.lights_phong.p7) :
    PhongBumpBlock cfg s = (s, []) := by
  simp [PhongBumpBlock, h4, h5, h6, h7]

theorem TransformMatricesBlock_idle (s : VSMState)
    (h : s.transform_matrices_changed.1 < 0) : TransformMatricesBlock s = (s, []) := by
  unfold TransformMatricesBlock
  rw [if_neg (by omega)]

theorem NormalMatricesBlock_idle (s : VSMState)
    (h : s.normal_matrices_changed.1 < 0) : NormalMatricesBlock s = (s, []) := by
  unfold NormalMatricesBlock
  rw [if_neg (by omega)]

theorem PostMatricesBlock_idle (s : VSMState)
    (h : s.postTransformMatricesChanged.1 < 0) : PostMatricesBlock s = (s, []) := by
  unfold PostMatricesBlock
  rw [if_neg (by omega)]

theorem LightsBlock_idle (xf : XFMem) (s : VSMState)
    (h : s.lights_changed.1 < 0) : LightsBlock xf s = (s, []) := by
  unfold LightsBlock
  rw [if_neg (by omega)]

theorem MaterialsBlock_idle (s : VSMState)
    (h : s.materials_changed = 0) : MaterialsBlock s = (s, []) := by
  simp [MaterialsBlock, h]

theorem TexMatricesABlock_idle (cp : CPState) (s : VSMState)
    (h : s.tex_matrices_changed.1 = false) : TexMatricesABlock cp s = (s, []) := by
  simp [TexMatricesABlock, h]

theorem TexMatricesBBlock_idle (cp : CPState) (s : VSMState)
    (h : s.tex_matrices_changed.2 = false) : TexMatricesBBlock cp s = (s, []) := by
  simp [TexMatricesBBlock, h]

theorem ViewportBlock_idle (cfg : VSMConfig) (s : VSMState)
    (h : s.bViewportChanged = false) : ViewportBlock cfg s = (s, []) := by
  simp [ViewportBlock, h]

theorem ProjectionBlock_idle (cfg : VSMConfig) (xf : XFMem) (s : VSMState)
    (h : s.bProjectionChanged = false) : ProjectionBlock cfg xf s = (s, []) := by
  simp [ProjectionBlock, h]

/-- `SetConstants` on a state with nothing marked dirty and `s_lights_phong`
matching the configuration performs no writes and leaves the state alone. -/
theorem SetConstants_idle (cfg : VSMConfig) (cp : CPState) (xf : XFMem) (s : VSMState)
    (h0 : cfg.iRimBase = s.lights_phong.p0) (h1 : cfg.iRimPower = s.lights_phong.p1)
    (h2 : cfg.iRimIntesity = s.lights_phong.p2)
    (h3 : cfg.iSpecularMultiplier = s.lights_phong.p3)
    (h4 : cfg.iSimBumpStrength = s.lights_phong.p4)
    (h5 : cfg.iSimBumpThreshold = s.lights_phong.p5)
    (h6 : cfg.iSimBumpDetailBlend = s.lights_phong.p6)
    (h7 : cfg.iSimBumpDetailFrequency = s.lights_phong.p7)
    (ht : s.transform_matrices_changed.1 < 0) (hn : s.normal_matrices_changed.1 < 0)
    (hp : s.postTransformMatricesChanged.1 < 0) (hl : s.lights_changed.1 < 0)
    (hm : s.materials_changed = 0) (hta : s.tex_matrices_changed.1 = false)
    (htb : s.tex_matrices_changed.2 = false) (hv : s.bViewportChanged = false)
    (hpr : s.bProjectionChanged = false) :
    SetConstants cfg cp xf s = (s, []) := by
  unfold SetConstants
  simp only [PhongRimBlock_idle cfg s h0 h1 h2 h3, PhongBumpBlock_idle cfg s h4 h5 h6 h7,
    TransformMatricesBlock_idle s ht, NormalMatricesBlock_idle s hn,
    PostMatricesBlock_idle s hp, LightsBlock_idle xf s hl, MaterialsBlock_idle s hm,
    TexMatricesABlock_idle cp s hta, TexMatricesBBlock_idle cp s htb,
    ViewportBlock_idle cfg s hv, ProjectionBlock_idle cfg xf s hpr,
    List.append_nil]

/-- C5: `SetConstants` clears every dirty marker it consumes: afterwards the
transform-, normal-, post-transform-matrix and light dirty intervals are the
empty `(-1, -1)`, the material mask and texture-matrix flags are cleared and
`bViewportChanged`/`bProjectionChanged` are false; consequently an immediate
second call with unchanged configuration, CP state and XF memory performs no
writes and leaves the state fixed (running it twice equals running it once).
The hypotheses state the representation invariant of the `{min, max}`
markers: the minimum is `-1` or a real index, and `-1` only occurs as the
empty pair `(-1, -1)`. -/
theorem SetConstants_clears_dirty (cfg : VSMConfig) (cp : CPState) (xf : XFMem) (s : VSMState)
    (ht : -1 ≤ s.transform_matrices_changed.1 ∧
      (s.transform_matrices_changed.1 = -1 → s.transform_matrices_changed.2 = -1))
    (hn : -1 ≤ s.normal_matrices_changed.1 ∧
      (s.normal_matrices_changed.1 = -1 → s.normal_matrices_changed.2 = -1))
    (hp : -1 ≤ s.postTransformMatricesChanged.1 ∧
      (s.postTransformMatricesChanged.1 = -1 → s.postTransformMatricesChanged.2 = -1))
    (hl : -1 ≤ s.lights_changed.1 ∧
      (s.lights_changed.1 = -1 → s.lights_changed.2 = -1)) :
    (SetConstants cfg cp xf s).1.transform_matrices_changed = (-1, -1) ∧
    (SetConstants cfg cp xf s).1.normal_matrices_changed = (-1, -1) ∧
    (SetConstants cfg cp xf s).1.postTransformMatricesChanged = (-1, -1) ∧
    (SetConstants cfg cp xf s).1.lights_changed = (-1, -1) ∧
    (SetConstants cfg cp xf s).1.materials_changed = 0 ∧
    (SetConstants cfg cp xf s).1.tex_matrices_changed = (false, false) ∧
    (SetConstants cfg cp xf s).1.bViewportChanged = false ∧
    (SetConstants cfg cp xf s).1.bProjectionChanged = false ∧
    SetConstants cfg cp xf (SetConstants cfg cp xf s).1 = ((SetConstants cfg cp xf s).1, []) := by
  have hint : ∀ q : Int × Int, -1 ≤ q.1 → (q.1 = -1 → q.2 = -1) →
      (if 0 ≤ q.1 then ((-1 : Int), (-1 : Int)) else q) = (-1, -1) := by
    intro q hq1 hq2
    obtain ⟨a, b⟩ := q
    split
    · rfl
    · next hq =>
      simp only at hq1 hq2
      have ha : a = -1 := by omega
      simp [ha, hq2 ha]
  refine ⟨?_, ?_, ?_, ?_, ?_, ?_, ?_, ?_, ?_⟩
  · rw [SetConstants_state]
    exact hint _ ht.1 ht.2
  · rw [SetConstants_state]
    exact hint _ hn.1 hn.2
  · rw [SetConstants_state]
    exact hint _ hp.1 hp.2
  · rw [SetConstants_state]
    exact hint _ hl.1 hl.2
  · rw [SetConstants_state]
  · rw [SetConstants_state]
  · rw [SetConstants_state]
  · rw [SetConstants_state]
  · refine SetConstants_idle cfg cp xf _ ?_ ?_ ?_ ?_ ?_ ?_ ?_ ?_ ?_ ?_ ?_ ?_ ?_ ?_ ?_ ?_ ?_ <;>
      simp only [SetConstants_state]
    · split
      · decide
      · omega
    · split
      · decide
      · omega
    · split
      · decide
      · omega
    · split
      · decide
      · omega

/-- Witness for C5 at the state left by `Dirty()` on a fully-clean baseline
with the all-zero configuration. -/
theorem SetConstants_clears_dirty_witness :
    (SetConstants {} {} {} (Dirty cleanVSMState)).1.transform_matrices_changed = (-1, -1) ∧
    SetConstants {} {} {} (SetConstants {} {} {} (Dirty cleanVSMState)).1 =
      ((SetConstants {} {} {} (Dirty cleanVSMState)).1, []) := by
  have h := SetConstants_clears_dirty {} {} {} (Dirty cleanVSMState)
    (by constructor <;> decide) (by constructor <;> decide)
    (by constructor <;> decide) (by constructor <;> decide)
  exact ⟨h.1, h.2.2.2.2.2.2.2.2⟩

/-! ### TextureCacheBase::Cleanup (TextureEncoder.h contract) -/

/-- The per-entry data relevant to frame-age eviction: the `TCacheEntryBase`
key fields and its `s32 frameCount`, "used to delete textures which haven't
been used for TEXTURE_KILL_THRESHOLD frames" (TextureEncoder.h). -/
structure TexCacheEntryMeta where
  addr : Nat := 0
  hash : Nat := 0
  frameCount : Int := 0
deriving DecidableEq, Repr

/-- Modelled from the spec: the body of `TextureCacheBase::Cleanup` is not
among the sources at hand — only its declaration in `TextureEncoder.h` with
the contract "Removes textures which aren't used for more than
TEXTURE_KILL_THRESHOLD frames, frameCount is the current frame number" and
the spec sentence "evicts stale entries by frame-age".  The cache is the
entry list; an entry whose age `frameCount - entry.frameCount` exceeds
`TEXTURE_KILL_THRESHOLD` is removed, every other entry is kept. -/
def Cleanup (frameCount : Int) (textures : List TexCacheEntryMeta) : List TexCacheEntryMeta :=
  textures.filter fun entry =>
    decide (frameCount - entry.frameCount ≤ (TEXTURE_KILL_THRESHOLD : Int))

/-- C1: `Cleanup(f)` evicts exactly by frame-age: an entry unused for more
than `TEXTURE_KILL_THRESHOLD = 120` frames relative to `f` is removed, an
entry used within the last 120 frames is kept. -/
theorem Cleanup_frame_age (f : Int) (cache : List TexCacheEntryMeta)
    (e : TexCacheEntryMeta) (he : e ∈ cache) :
    ((TEXTURE_KILL_THRESHOLD : Int) < f - e.frameCount → e ∉ Cleanup f cache) ∧
    (f - e.frameCount ≤ (TEXTURE_KILL_THRESHOLD : Int) → e ∈ Cleanup f cache) := by
  constructor
  · intro hage hmem
    rw [Cleanup, List.mem_filter] at hmem
    have := of_decide_eq_true hmem.2
    omega
  · intro hage
    rw [Cleanup, List.mem_filter]
    exact ⟨he, decide_eq_true hage⟩

/-- Witness for C1 at frame 200: an entry last used at frame 79 (age 121) is
evicted, one last used at frame 80 (age 120) is kept. -/
theorem Cleanup_frame_age_witness :
    ⟨1, 10, 79⟩ ∉ Cleanup 200 [⟨1, 10, 79⟩, ⟨2, 20, 80⟩] ∧
    (⟨2, 20, 80⟩ : TexCacheEntryMeta) ∈ Cleanup 200 [⟨1, 10, 79⟩, ⟨2, 20, 80⟩] :=
  ⟨(Cleanup_frame_age 200 [⟨1, 10, 79⟩, ⟨2, 20, 80⟩] ⟨1, 10, 79⟩ (by decide)).1 (by decide),
   (Cleanup_frame_age 200 [⟨1, 10, 79⟩, ⟨2, 20, 80⟩] ⟨2, 20, 80⟩ (by decide)).2 (by decide)⟩

/-! ### StateTracker (VideoBackends/Vulkan/StateTracker.h)

The `DITRY_FLAG` enum values below are the ones declared in the header (which
is among the sources); the member-function bodies live in `StateTracker.cpp`,
which is not, so the setters, `SetPendingRebind` and `Bind` are modelled from
the spec. -/

def DIRTY_FLAG_VS_UBO : Nat := 1 <<< 0
def DIRTY_FLAG_GS_UBO : Nat := 1 <<< 1
def DIRTY_FLAG_PS_UBO : Nat := 1 <<< 2
def DIRTY_FLAG_PS_SAMPLERS : Nat := 1 <<< 3
def DIRTY_FLAG_PS_SSBO : Nat := 1 <<< 4
def DIRTY_FLAG_DYNAMIC_OFFSETS : Nat := 1 <<< 5
def DIRTY_FLAG_VERTEX_BUFFER : Nat := 1 <<< 6
def DIRTY_FLAG_INDEX_BUFFER : Nat := 1 <<< 7
def DIRTY_FLAG_VIEWPORT : Nat := 1 <<< 8
def DIRTY_FLAG_SCISSOR : Nat := 1 <<< 9
def DIRTY_FLAG_PIPELINE : Nat := 1 <<< 10
def DIRTY_FLAG_DESCRIPTOR_SET_BINDING : Nat := 1 <<< 11
def DIRTY_FLAG_PIPELINE_BINDING : Nat := 1 <<< 12

def DIRTY_FLAG_ALL_DESCRIPTOR_SETS : Nat :=
  DIRTY_FLAG_VS_UBO ||| DIRTY_FLAG_GS_UBO ||| DIRTY_FLAG_PS_SAMPLERS ||| DIRTY_FLAG_PS_SSBO

/-- Every individual `DITRY_FLAG` bit, in declaration order. -/
def stateTrackerFlags : List Nat :=
  [DIRTY_FLAG_VS_UBO, DIRTY_FLAG_GS_UBO, DIRTY_FLAG_PS_UBO, DIRTY_FLAG_PS_SAMPLERS,
   DIRTY_FLAG_PS_SSBO, DIRTY_FLAG_DYNAMIC_OFFSETS, DIRTY_FLAG_VERTEX_BUFFER,
   DIRTY_FLAG_INDEX_BUFFER, DIRTY_FLAG_VIEWPORT, DIRTY_FLAG_SCISSOR, DIRTY_FLAG_PIPELINE,
   DIRTY_FLAG_DESCRIPTOR_SET_BINDING, DIRTY_FLAG_PIPELINE_BINDING]

/-- The recorded binding state of the tracker (`m_dirty_flags`, the input
assembly / shader binding / rasterization members of `StateTracker`).  Views,
samplers, buffers and the packed pipeline-state words are handles (`Nat`). -/
structure STState where
  dirty_flags : Nat := 0
  vertex_buffer : Nat := 0
  vertex_buffer_offset : Nat := 0
  textures : Nat → Nat := fun _ => 0
  samplers : Nat → Nat := fun _ => 0
  viewport : Nat := 0
  scissor : Nat := 0
  rasterization_state : Nat := 0
  depth_stencil_state : Nat := 0
  blend_state : Nat := 0

/-- A Vulkan command issued while binding; one rebind command per dirty-flag
group, tagged with the flag bit. -/
inductive BindCmd where
  | rebind (flag : Nat)
deriving DecidableEq, Repr

/-- Modelled from the spec: `StateTracker::SetVertexBuffer` (body in
`StateTracker.cpp`, not among the sources) — "state-setting calls only record
the value and set the corresponding dirty flag without issuing Vulkan bind
commands". -/
def SetVertexBuffer (buffer offset : Nat) (s : STState) : STState × List BindCmd :=
  ({ s with
      vertex_buffer := buffer, vertex_buffer_offset := offset,
      dirty_flags := s.dirty_flags ||| DIRTY_FLAG_VERTEX_BUFFER }, [])

/-- Modelled from the spec: `StateTracker::SetTexture` records the image view
for the sampler slot and marks the sampler descriptors dirty. -/
def SetTexture (index view : Nat) (s : STState) : STState × List BindCmd :=
  ({ s with
      textures := fun i => if i = index then view else s.textures i,
      dirty_flags := s.dirty_flags ||| DIRTY_FLAG_PS_SAMPLERS }, [])

/-- Modelled from the spec: `StateTracker::SetSampler`. -/
def SetSampler (index sampler : Nat) (s : STState) : STState × List BindCmd :=
  ({ s with
      samplers := fun i => if i = index then sampler else s.samplers i,
      dirty_flags := s.dirty_flags ||| DIRTY_FLAG_PS_SAMPLERS }, [])

/-- Modelled from the spec: `StateTracker::SetViewport`. -/
def SetViewport (viewport : Nat) (s : STState) : STState × List BindCmd :=
  ({ s with viewport := viewport, dirty_flags := s.dirty_flags ||| DIRTY_FLAG_VIEWPORT }, [])

/-- Modelled from the spec: `StateTracker::SetScissor`. -/
def SetScissor (scissor : Nat) (s : STState) : STState × List BindCmd :=
  ({ s with scissor := scissor, dirty_flags := s.dirty_flags ||| DIRTY_FLAG_SCISSOR }, [])

/-- Modelled from the spec: `StateTracker::SetRasterizationState` marks the
pipeline dirty. -/
def SetRasterizationState (state : Nat) (s : STState) : STState × List BindCmd :=
  ({ s with
      rasterization_state := state,
      dirty_flags := s.dirty_flags ||| DIRTY_FLAG_PIPELINE }, [])

/-- Modelled from the spec: `StateTracker::SetDepthStencilState`. -/
def SetDepthStencilState (state : Nat) (s : STState) : STState × List BindCmd :=
  ({ s with
      depth_stencil_state := state,
      dirty_flags := s.dirty_flags ||| DIRTY_FLAG_PIPELINE }, [])

/-- Modelled from the spec: `StateTracker::SetBlendState`. -/
def SetBlendState (state : Nat) (s : STState) : STState × List BindCmd :=
  ({ s with blend_state := state, dirty_flags := s.dirty_flags ||| DIRTY_FLAG_PIPELINE }, [])

/-- Modelled from the spec: `StateTracker::SetPendingRebind` — "Set dirty
flags on everything to force re-bind at next draw time" (StateTracker.h). -/
def SetPendingRebind (s : STState) : STState :=
  { s with dirty_flags := s.dirty_flags ||| DIRTY_FLAG_ALL_DESCRIPTOR_SETS |||
      DIRTY_FLAG_PS_UBO ||| DIRTY_FLAG_DYNAMIC_OFFSETS ||| DIRTY_FLAG_VERTEX_BUFFER |||
      DIRTY_FLAG_INDEX_BUFFER ||| DIRTY_FLAG_VIEWPORT ||| DIRTY_FLAG_SCISSOR |||
      DIRTY_FLAG_PIPELINE ||| DIRTY_FLAG_DESCRIPTOR_SET_BINDING |||
      DIRTY_FLAG_PIPELINE_BINDING }

/-- Modelled from the spec: `StateTracker::Bind` — "the next Bind() before a
draw re-binds exactly the objects whose dirty flags are set, clearing the
flags": one rebind command per set flag bit, dirty mask cleared. -/
def Bind (s : STState) : STState × List BindCmd :=
  ({ s with dirty_flags := 0 },
   stateTrackerFlags.filterMap fun f =>
     if s.dirty_flags &&& f ≠ 0 then some (BindCmd.rebind f) else none)

theorem or_and_ne_zero_of_right {x y f : Nat} (h : y &&& f ≠ 0) : (x ||| y) &&& f ≠ 0 := by
  intro hz
  apply h
  rw [Nat.and_distrib_right] at hz
  apply Nat.eq_of_testBit_eq
  intro i
  have hb := congrArg (fun n => n.testBit i) hz
  simp only [Nat.testBit_or, Nat.zero_testBit, Bool.or_eq_false_iff] at hb
  simp [hb.2]

/-- C7: the tracker defers binding — every state-setting call records the
value and sets its dirty flag while issuing no bind command (flags already
set are kept, since the mask only grows by or-ing), `Bind()` issues exactly
one rebind per set dirty flag and clears the mask, and after
`SetPendingRebind()` a `Bind()` rebinds every flag group. -/
theorem StateTracker_deferred_binding (s : STState)
    (buffer offset index view sampler vp sc rs ds bs : Nat) :
    ((SetVertexBuffer buffer offset s).2 = [] ∧
      (SetVertexBuffer buffer offset s).1.vertex_buffer = buffer ∧
      (SetVertexBuffer buffer offset s).1.vertex_buffer_offset = offset ∧
      (SetVertexBuffer buffer offset s).1.dirty_flags &&& DIRTY_FLAG_VERTEX_BUFFER ≠ 0) ∧
    ((SetTexture index view s).2 = [] ∧
      (SetTexture index view s).1.textures index = view ∧
      (SetTexture index view s).1.dirty_flags &&& DIRTY_FLAG_PS_SAMPLERS ≠ 0) ∧
    ((SetSampler index sampler s).2 = [] ∧
      (SetSampler index sampler s).1.samplers index = sampler ∧
      (SetSampler index sampler s).1.dirty_flags &&& DIRTY_FLAG_PS_SAMPLERS ≠ 0) ∧
    ((SetViewport vp s).2 = [] ∧ (SetViewport vp s).1.viewport = vp ∧
      (SetViewport vp s).1.dirty_flags &&& DIRTY_FLAG_VIEWPORT ≠ 0) ∧
    ((SetScissor sc s).2 = [] ∧ (SetScissor sc s).1.scissor = sc ∧
      (SetScissor sc s).1.dirty_flags &&& DIRTY_FLAG_SCISSOR ≠ 0) ∧
    ((SetRasterizationState rs s).2 = [] ∧
      (SetRasterizationState rs s).1.rasterization_state = rs ∧
      (SetRasterizationState rs s).1.dirty_flags &&& DIRTY_FLAG_PIPELINE ≠ 0) ∧
    ((SetDepthStencilState ds s).2 = [] ∧
      (SetDepthStencilState ds s).1.depth_stencil_state = ds ∧
      (SetDepthStencilState ds s).1.dirty_flags &&& DIRTY_FLAG_PIPELINE ≠ 0) ∧
    ((SetBlendState bs s).2 = [] ∧ (SetBlendState bs s).1.blend_state = bs ∧
      (SetBlendState bs s).1.dirty_flags &&& DIRTY_FLAG_PIPELINE ≠ 0) ∧
    (∀ f, BindCmd.rebind f ∈ (Bind s).2 ↔
      (f ∈ stateTrackerFlags ∧ s.dirty_flags &&& f ≠ 0)) ∧
    (Bind s).1.dirty_flags = 0 ∧
    (∀ f, f ∈ stateTrackerFlags → BindCmd.rebind f ∈ (Bind (SetPendingRebind s)).2) := by
  have hBind : ∀ (s' : STState) (f : Nat), BindCmd.rebind f ∈ (Bind s').2 ↔
      (f ∈ stateTrackerFlags ∧ s'.dirty_flags &&& f ≠ 0) := by
    intro s' f
    simp only [Bind, List.mem_filterMap]
    constructor
    · rintro ⟨g, hg, hsome⟩
      by_cases hc : s'.dirty_flags &&& g ≠ 0
      · rw [if_pos hc] at hsome
        obtain rfl : g = f := by simpa using hsome
        exact ⟨hg, hc⟩
      · rw [if_neg hc] at hsome
        cases hsome
    · rintro ⟨hf, hc⟩
      exact ⟨f, hf, by rw [if_pos hc]⟩
  refine ⟨⟨rfl, rfl, rfl, or_and_ne_zero_of_right (by decide)⟩,
    ⟨rfl, by simp [SetTexture], or_and_ne_zero_of_right (by decide)⟩,
    ⟨rfl, by simp [SetSampler], or_and_ne_zero_of_right (by decide)⟩,
    ⟨rfl, rfl, or_and_ne_zero_of_right (by decide)⟩,
    ⟨rfl, rfl, or_and_ne_zero_of_right (by decide)⟩,
    ⟨rfl, rfl, or_and_ne_zero_of_right (by decide)⟩,
    ⟨rfl, rfl, or_and_ne_zero_of_right (by decide)⟩,
    ⟨rfl, rfl, or_and_ne_zero_of_right (by decide)⟩,
    hBind s, rfl, ?_⟩
  intro f hf
  rw [hBind]
  refine ⟨hf, ?_⟩
  fin_cases hf <;>
    · simp only [SetPendingRebind, Nat.or_assoc]
      exact or_and_ne_zero_of_right (by decide)

/-- Witness for C7: on a freshly clean tracker, after `SetPendingRebind` the
vertex-buffer flag group is rebound by `Bind`. -/
theorem StateTracker_deferred_binding_witness :
    BindCmd.rebind DIRTY_FLAG_VERTEX_BUFFER ∈ (Bind (SetPendingRebind {})).2 :=
  (StateTracker_deferred_binding {} 0 0 0 0 0 0 0 0 0 0).2.2.2.2.2.2.2.2.2.2
    DIRTY_FLAG_VERTEX_BUFFER (by decide)

end Ishiiruka
